import Mathlib

set_option maxRecDepth 100000

/-!
Verification model of the node-list-backed hash map (`UnorderedMap` over the
custom doubly-linked `List`) from `src/unnamed/part_000`.

Modelling conventions (shallow embedding):

* Every payload node of the `List` is modelled as an `Entry` carrying a
  node identity `id : Nat` besides its key/value pair.  Node identities model
  node addresses: they are allocated from a fresh counter (`nextId`) and are
  never reused, exactly as distinct heap allocations give distinct addresses
  while a dangling pointer compares unequal to every live node and to the
  sentinels.
* A `List` iterator is `Option Nat`: `some i` points at the node with
  identity `i`, `none` is the end/tail sentinel (`elements.end()`).
* Out-of-bounds vector accesses and dereferences of the sentinel or of freed
  nodes are undefined behaviour in C++; the model makes every such step an
  explicit `none`/`crash` outcome instead of picking a value.
* `load_factor() > max_load_factor()` with `max_load_factor()` fixed at `1.0`
  is modelled as `bucket_count < size`: `size/1.0` is exact in double
  arithmetic and the correctly rounded quotient `size/bucket_count` compares
  `> 1.0` exactly when `size > bucket_count` (`NaN > 1.0` and `inf > 1.0`
  for `bucket_count = 0` agree with `0 > 0` resp. `size > 0`).
  Likewise the clamp `static_cast<size_t>(size() / max_load_factor())`
  in `rehash` is exactly `size`.
-/

/-- One payload node of the element list: node identity plus the stored
`std::pair<const Key, Value>`. -/
structure Entry (K V : Type) where
  id : Nat
  key : K
  val : V
deriving DecidableEq

/-- A `List` iterator: `some i` designates the node with identity `i`,
`none` is the end sentinel (`tail_`). -/
abbrev Iter := Option Nat

/-- The identities of the nodes of a list, in list order. -/
def entryIds {K V : Type} (l : List (Entry K V)) : List Nat := l.map (fun e => e.id)

/-- Bucket descriptor: a `[begin, end)` pair of iterators into the shared
element list (fields renamed `bbegin`/`bend` because `end` is reserved). -/
structure Bucket where
  bbegin : Iter
  bend : Iter
deriving DecidableEq

/-- A default-constructed bucket descriptor whose two iterators were set to
`elements.end()`. -/
def emptyBucket : Bucket := ⟨none, none⟩

/-- Model state of `UnorderedMap`: the element list (in list order), the
bucket table, and the fresh-node counter. -/
structure UnorderedMap (K V : Type) where
  elements : List (Entry K V)
  buckets : List Bucket
  nextId : Nat
deriving DecidableEq

/-- Position of an iterator in a list: index of its node, or `length` for the
end sentinel.  (A dangling identity also maps to `length`; positions are only
used to read off `[begin, end)` ranges, where validity is checked separately.) -/
def iterPos {K V : Type} (l : List (Entry K V)) (it : Iter) : Nat :=
  match it with
  | none => l.length
  | some i => l.findIdx (fun e => e.id == i)

/-- Successor iterator of the node with identity `i` (`std::next` on a live
node): the following node, or the end sentinel if it is last. -/
def nextIter {K V : Type} (l : List (Entry K V)) (i : Nat) : Iter :=
  match l.findIdx? (fun e => e.id == i) with
  | none => none
  | some p =>
    match l[p + 1]? with
    | none => none
    | some e => some e.id

/-- `List::emplace(pos, args...)` (src 401-435): link a freshly constructed
node immediately before `pos`.  `none` models the undefined behaviour of
passing an iterator to a freed node. -/
def listEmplace {K V : Type} (l : List (Entry K V)) (pos : Iter) (e : Entry K V) :
    Option (List (Entry K V)) :=
  match pos with
  | none => some (l ++ [e])
  | some i =>
    match l.findIdx? (fun x => x.id == i) with
    | none => none
    | some p => some (l.take p ++ e :: l.drop p)

/-- `List::erase(pos)` (src 445-460): erasing `end()` returns `end()` and
changes nothing; erasing a live node unlinks it and returns an iterator to the
following node.  `none` models dereferencing a freed node. -/
def listErase {K V : Type} (l : List (Entry K V)) (pos : Iter) :
    Option (List (Entry K V) × Iter) :=
  match pos with
  | none => some (l, none)
  | some i =>
    match l.findIdx? (fun e => e.id == i) with
    | none => none
    | some p =>
      some (l.take p ++ l.drop (p + 1),
        match l[p + 1]? with
        | none => none
        | some e => some e.id)

/-- `List::move_node(from, to)` (src 469-483): relink the node `from`
immediately before `to` by pointer surgery only.  `none` models the undefined
behaviour of a non-live `from`, or of a `to` that is neither live nor the end
sentinel (after unlinking `from`). -/
def moveNode {K V : Type} (l : List (Entry K V)) (fromIt toIt : Iter) :
    Option (List (Entry K V)) :=
  match fromIt with
  | none => none
  | some i =>
    match l.findIdx? (fun e => e.id == i) with
    | none => none
    | some p =>
      match l[p]? with
      | none => none
      | some e =>
        let rest := l.take p ++ l.drop (p + 1)
        match toIt with
        | none => some (rest ++ [e])
        | some j =>
          match rest.findIdx? (fun x => x.id == j) with
          | none => none
          | some q => some (rest.take q ++ e :: rest.drop q)

/-- Result of one bucket scan `for (it = b.begin; it != b.end; ++it)`:
a match, loop exit at `b.end`, or undefined behaviour (the walk dereferenced
the tail sentinel because `b.end` never compared equal). -/
inductive FindRes (K V : Type) where
  | found (e : Entry K V)
  | noMatch
  | crash
deriving DecidableEq

/-- The scan loop body from an iterator standing at the head of the suffix
(or at the sentinel when the suffix is empty): first compare `it != stop`,
then dereference and test the key, then advance. -/
def scanFrom {K V : Type} [DecidableEq K] (k : K) (stop : Iter) :
    List (Entry K V) → FindRes K V
  | [] => if stop = none then FindRes.noMatch else FindRes.crash
  | e :: rest =>
    if stop = some e.id then FindRes.noMatch
    else if e.key = k then FindRes.found e
    else scanFrom k stop rest

/-- Scan of a bucket's `[begin, end)` range over the element list, exactly as
the loops in `find`/`emplace`/`insert` perform it (src 830, 867, 984). -/
def bucketScan {K V : Type} [DecidableEq K] (l : List (Entry K V)) (k : K) (b : Bucket) :
    FindRes K V :=
  if b.bbegin = b.bend then FindRes.noMatch
  else
    match b.bbegin with
    | none => FindRes.crash
    | some i =>
      match l.findIdx? (fun e => e.id == i) with
      | none => FindRes.crash
      | some p => scanFrom k b.bend (l.drop p)

/-- Observable outcome of `UnorderedMap::find`: the returned iterator
(dereferenced entry, or `none` for `end()`), or one of the two undefined
behaviours the code can run into. -/
inductive FindOutcome (K V : Type) where
  | ret (e : Option (Entry K V))
  | tableOOB
  | derefUB
deriving DecidableEq

namespace UnorderedMap

/-- `UnorderedMap(bucket_count, ...)` (src 617-627): empty list, bucket table
of `bucket_count` descriptors all pointing at the end sentinel. -/
def mkUMap {K V : Type} (bucket_count : Nat) : UnorderedMap K V :=
  ⟨[], List.replicate bucket_count emptyBucket, 0⟩

/-- `size()` (src 720). -/
def size {K V : Type} (m : UnorderedMap K V) : Nat := m.elements.length

/-- `empty()` (src 724). -/
def mapEmpty {K V : Type} (m : UnorderedMap K V) : Bool := m.elements.isEmpty

/-- `bucket_count()` (src 1076). -/
def bucket_count {K V : Type} (m : UnorderedMap K V) : Nat := m.buckets.length

/-- `get_bucket_index(key)` (src 526-532): `0` when the bucket table is
empty, otherwise `hash(key) % bucket_count`. -/
def get_bucket_index {K V : Type} (hasher : K → Nat) (m : UnorderedMap K V) (k : K) : Nat :=
  if m.buckets.isEmpty then 0 else hasher k % m.buckets.length

/-- The test in `check_rehash` (src 534-538): `load_factor() > max_load_factor()`,
which is exactly `bucket_count < size` (see the header note on doubles). -/
def needsRehash {K V : Type} (m : UnorderedMap K V) : Bool :=
  bucket_count m < size m

/-- `find(key)` (src 982-990). -/
def find {K V : Type} [DecidableEq K] (hasher : K → Nat) (m : UnorderedMap K V) (k : K) :
    FindOutcome K V :=
  let index := get_bucket_index hasher m k
  match m.buckets[index]? with
  | none => FindOutcome.tableOOB
  | some b =>
    match bucketScan m.elements k b with
    | FindRes.found e => FindOutcome.ret (some e)
    | FindRes.noMatch => FindOutcome.ret none
    | FindRes.crash => FindOutcome.derefUB

end UnorderedMap

/-- One iteration of the inner member loop of `rehash` (src 785-790):
`if (old_it != current_pos) current_pos = move_node(old_it, current_pos);
++current_pos;`.  The state is the element list plus the cursor iterator;
`none` propagates undefined behaviour of `move_node`. -/
def rehashStepMember {K V : Type} (st : Option (List (Entry K V) × Iter)) (oldIt : Nat) :
    Option (List (Entry K V) × Iter) :=
  match st with
  | none => none
  | some (l, cur) =>
    if cur = some oldIt then some (l, nextIter l oldIt)
    else
      match moveNode l (some oldIt) cur with
      | none => none
      | some l2 => some (l2, nextIter l2 oldIt)

/-- One iteration of the outer bucket loop of `rehash` (src 781-794): for a
non-empty group, record `begin := current_pos` before splicing the members,
run the member loop, record `end := current_pos` afterwards.  The bucket table
is accumulated in ascending index order. -/
def rehashStepBucket {K V : Type} (st : Option (List (Entry K V) × Iter × List Bucket))
    (group : List Nat) : Option (List (Entry K V) × Iter × List Bucket) :=
  match st with
  | none => none
  | some (l, cur, acc) =>
    if group.isEmpty then some (l, cur, acc ++ [emptyBucket])
    else
      match group.foldl rehashStepMember (some (l, cur)) with
      | none => none
      | some (l2, cur2) => some (l2, cur2, acc ++ [⟨cur, cur2⟩])

namespace UnorderedMap

/-- `rehash(new_size)` (src 754-795): clamp `new_size` up to
`size() / max_load_factor()` (= `size`, see header note); no-op when the
clamped size equals the bucket count and the map is non-empty; otherwise
rebuild the bucket table, group the node iterators by new index in one pass
over the list, and relink the list with the cursor loop.  `none` propagates
undefined behaviour from `move_node`. -/
def rehash {K V : Type} [DecidableEq K] (hasher : K → Nat) (m : UnorderedMap K V)
    (new_size0 : Nat) : Option (UnorderedMap K V) :=
  let min_required_buckets := size m
  let new_size :=
    if new_size0 < min_required_buckets then min_required_buckets else new_size0
  if new_size = bucket_count m ∧ m.elements.isEmpty = false then some m
  else if m.elements.isEmpty then
    some ⟨m.elements, List.replicate new_size emptyBucket, m.nextId⟩
  else
    let groups := (List.range new_size).map
      (fun i => (m.elements.filter (fun e => hasher e.key % new_size == i)).map (fun e => e.id))
    match groups.foldl rehashStepBucket
        (some (m.elements, m.elements.head?.map (fun e => e.id), [])) with
    | none => none
    | some (l2, _, bkts) => some ⟨l2, bkts, m.nextId⟩

/-- `check_rehash()` (src 534-538): rehash to twice the bucket count when the
load factor exceeds the maximum. -/
def check_rehash {K V : Type} [DecidableEq K] (hasher : K → Nat) (m : UnorderedMap K V) :
    Option (UnorderedMap K V) :=
  if needsRehash m then rehash hasher m (2 * bucket_count m) else some m

end UnorderedMap

/-- Result of `emplace`/`insert`/`erase`-style operations: the new map state,
the returned iterator and the returned flag, or undefined behaviour. -/
inductive OpRes (K V : Type) where
  | ok (m : UnorderedMap K V) (it : Iter) (inserted : Bool)
  | crash
deriving DecidableEq

/-- The bucket-boundary repair performed after appending into a previously
empty bucket (src 840-846 and the identical blocks in both `insert`
overloads): if the entry preceding the new node belongs to a different bucket
whose recorded `end` is the end sentinel, point that `end` at the new node.
`m0.elements` is the element list before the append (`std::prev` of the new
node is its last entry). -/
def fixPrevBucketEnd {K V : Type} (hasher : K → Nat) (m0 : UnorderedMap K V)
    (bkts1 : List Bucket) (index : Nat) (newId : Nat) : List Bucket :=
  match m0.elements.getLast? with
  | none => bkts1
  | some pe =>
    let prev_index := UnorderedMap.get_bucket_index hasher m0 pe.key
    match bkts1[prev_index]? with
    | none => bkts1
    | some pb =>
      if prev_index ≠ index ∧ pb.bend = none then
        bkts1.set prev_index ⟨pb.bbegin, some newId⟩
      else bkts1

namespace UnorderedMap

/-- Body of `emplace` after `check_rehash()` (src 826-852): append the newly
constructed node at the tail, compute the bucket index, scan the bucket for a
duplicate (the scan can reach the appended node itself when the bucket's
`end` is the end sentinel), then either erase the duplicate temporary, or
place the node (empty-bucket path with boundary repair, or `move_node` before
the bucket's `end`). -/
def emplaceNoRehash {K V : Type} [DecidableEq K] (hasher : K → Nat)
    (m0 : UnorderedMap K V) (k : K) (v : V) : OpRes K V :=
  let temp : Entry K V := ⟨m0.nextId, k, v⟩
  let l1 := m0.elements ++ [temp]
  let index := get_bucket_index hasher m0 k
  match m0.buckets[index]? with
  | none => OpRes.crash
  | some b =>
    match bucketScan l1 k b with
    | FindRes.crash => OpRes.crash
    | FindRes.found e =>
      OpRes.ok ⟨m0.elements, m0.buckets, m0.nextId + 1⟩ (some e.id) false
    | FindRes.noMatch =>
      if b.bbegin = none then
        let bkts1 := m0.buckets.set index ⟨some temp.id, nextIter l1 temp.id⟩
        let bkts2 := fixPrevBucketEnd hasher m0 bkts1 index temp.id
        OpRes.ok ⟨l1, bkts2, m0.nextId + 1⟩ (some temp.id) true
      else
        match moveNode l1 (some temp.id) b.bend with
        | none => OpRes.crash
        | some l2 => OpRes.ok ⟨l2, m0.buckets, m0.nextId + 1⟩ (some temp.id) true

/-- `emplace(args...)` (src 823-853): `check_rehash()` first, then the body. -/
def emplace {K V : Type} [DecidableEq K] (hasher : K → Nat) (m : UnorderedMap K V)
    (k : K) (v : V) : OpRes K V :=
  match check_rehash hasher m with
  | none => OpRes.crash
  | some m0 => emplaceNoRehash hasher m0 k v

/-- Body of `insert(const NodeType&)` after `check_rehash()` (src 865-890):
scan the bucket first (no temporary is constructed), then place a new node
either on the empty-bucket path (append plus boundary repair) or by
`elements.emplace(buckets[index].end, value)`. -/
def insertNoRehash {K V : Type} [DecidableEq K] (hasher : K → Nat)
    (m0 : UnorderedMap K V) (k : K) (v : V) : OpRes K V :=
  let index := get_bucket_index hasher m0 k
  match m0.buckets[index]? with
  | none => OpRes.crash
  | some b =>
    match bucketScan m0.elements k b with
    | FindRes.crash => OpRes.crash
    | FindRes.found e => OpRes.ok m0 (some e.id) false
    | FindRes.noMatch =>
      let ne : Entry K V := ⟨m0.nextId, k, v⟩
      if b.bbegin = none then
        let l1 := m0.elements ++ [ne]
        let bkts1 := m0.buckets.set index ⟨some ne.id, nextIter l1 ne.id⟩
        let bkts2 := fixPrevBucketEnd hasher m0 bkts1 index ne.id
        OpRes.ok ⟨l1, bkts2, m0.nextId + 1⟩ (some ne.id) true
      else
        match listEmplace m0.elements b.bend ne with
        | none => OpRes.crash
        | some l1 => OpRes.ok ⟨l1, m0.buckets, m0.nextId + 1⟩ (some ne.id) true

/-- `insert(const NodeType&)` (src 863-891): `check_rehash()` first, then the
body. -/
def insert {K V : Type} [DecidableEq K] (hasher : K → Nat) (m : UnorderedMap K V)
    (k : K) (v : V) : OpRes K V :=
  match check_rehash hasher m with
  | none => OpRes.crash
  | some m0 => insertNoRehash hasher m0 k v

/-- `erase(const_iterator pos)` (src 939-961): erasing `end()` returns
`end()`; otherwise hash the node's key to locate its bucket, erase the node
from the list, and update that single bucket's descriptor.  `none` models the
undefined behaviour of a dangling `pos` or an out-of-bounds bucket access. -/
def erase {K V : Type} [DecidableEq K] (hasher : K → Nat) (m : UnorderedMap K V)
    (pos : Iter) : Option (UnorderedMap K V × Iter) :=
  match pos with
  | none => some (m, none)
  | some i =>
    match m.elements.find? (fun e => e.id == i) with
    | none => none
    | some e =>
      let index := get_bucket_index hasher m e.key
      match m.buckets[index]? with
      | none => none
      | some b =>
        let it_next := nextIter m.elements i
        match listErase m.elements (some i) with
        | none => none
        | some (l2, next_it) =>
          let b2 :=
            if b.bbegin = some i ∧ b.bend = it_next then emptyBucket
            else ⟨if b.bbegin = some i then next_it else b.bbegin,
                  if b.bend = it_next then next_it else b.bend⟩
          some (⟨l2, m.buckets.set index b2, m.nextId⟩, next_it)

end UnorderedMap

/-- Observable outcome of `at(key)`: the mapped value, the thrown
`std::out_of_range`, or undefined behaviour inside `find`. -/
inductive AtRes (V : Type) where
  | value (v : V)
  | keyNotFound
  | crash
deriving DecidableEq

namespace UnorderedMap

/-- `at(key)` (src 1020-1026): `find`, throw "Key not found" on `end()`,
otherwise return the mapped value. -/
def atKey {K V : Type} [DecidableEq K] (hasher : K → Nat) (m : UnorderedMap K V) (k : K) :
    AtRes V :=
  match find hasher m k with
  | FindOutcome.ret (some e) => AtRes.value e.val
  | FindOutcome.ret none => AtRes.keyNotFound
  | _ => AtRes.crash

/-- `operator[](key)` (src 1010-1013): `emplace(key, Value())` and return
`it->second` for the returned iterator.  `dflt` is the default-constructed
`Value()`.  `none` models undefined behaviour: a crash inside `emplace`, or
dereferencing an iterator that designates no live node. -/
def opIndex {K V : Type} [DecidableEq K] (hasher : K → Nat) (dflt : V)
    (m : UnorderedMap K V) (k : K) : Option (UnorderedMap K V × V) :=
  match emplace hasher m k dflt with
  | OpRes.crash => none
  | OpRes.ok m2 it _ =>
    match it with
    | none => none
    | some i =>
      match m2.elements.find? (fun e => e.id == i) with
      | none => none
      | some e => some (m2, e.val)

/-- `UnorderedMap(UnorderedMap&&)` (src 652-658) over `List(List&&)`
(src 157-165) and the moved-from bucket vector: the new map takes the list,
bucket table and counter wholesale; the source is left with null list
sentinels (observable content empty, `size_ == 0`) and an empty bucket
table. -/
def umMoveCtor {K V : Type} (m : UnorderedMap K V) :
    UnorderedMap K V × UnorderedMap K V :=
  (⟨m.elements, m.buckets, m.nextId⟩, ⟨[], [], 0⟩)

end UnorderedMap

/-- Model of `List::emplace` (src 401-435) when constructing the payload
raises: `allocate` succeeds (one more live node allocation), `construct`
raises, and the function contains no cleanup handler, so control unwinds with
the node still allocated and the list links and size untouched.  The pair is
(list content, live allocation count) after the raise propagates. -/
def listEmplaceCtorThrow {K V : Type} (l : List (Entry K V)) (live : Nat) :
    List (Entry K V) × Nat :=
  (l, live + 1)

namespace UnorderedMap

/-- `UnorderedMap::emplace` (src 823-853) when the entry constructor raises:
`check_rehash()` runs first, then `elements.emplace(elements.end(), ...)` is
entered and raises after allocating its node; nothing after that call
executes, so the element list, bucket table and counter are those of the
post-`check_rehash` state while the allocated node is never deallocated. -/
def emplaceCtorThrow {K V : Type} [DecidableEq K] (hasher : K → Nat)
    (m : UnorderedMap K V) (live : Nat) : Option (UnorderedMap K V × Nat) :=
  match check_rehash hasher m with
  | none => none
  | some m0 =>
    some (⟨(listEmplaceCtorThrow m0.elements live).1, m0.buckets, m0.nextId⟩,
      (listEmplaceCtorThrow m0.elements live).2)

end UnorderedMap

/-- The half-open range `[begin, end)` a bucket descriptor denotes in the
element list, read off via iterator positions. -/
def bucketRange {K V : Type} (l : List (Entry K V)) (b : Bucket) : List (Entry K V) :=
  (l.take (iterPos l b.bend)).drop (iterPos l b.bbegin)

/-- Concatenation of all bucket ranges in ascending bucket index order
(empty buckets contribute nothing). -/
def bucketsConcat {K V : Type} (m : UnorderedMap K V) : List (Entry K V) :=
  (m.buckets.map (fun b => bucketRange m.elements b)).flatten

/-- The identity hash functor used in the concrete scenarios (the hash
functor is a template parameter; `hash(k) = k` is a legitimate, deterministic
instantiation for integer keys). -/
def idHash : Nat → Nat := fun n => n

/-- Map state of an operation result (`mkUMap 0` as an arbitrary fallback on
the crash branch; every use below is on a non-crash result). -/
def opResMap {K V : Type} (r : OpRes K V) : UnorderedMap K V :=
  match r with
  | OpRes.ok m _ _ => m
  | OpRes.crash => UnorderedMap.mkUMap 0

/-- The boolean of the returned pair of an `insert`/`emplace` result. -/
def opResInserted {K V : Type} (r : OpRes K V) : Bool :=
  match r with
  | OpRes.ok _ _ b => b
  | OpRes.crash => false

/-- Apply a sequence of `emplace(k, v)` calls. -/
def emplaceSeq (ps : List (Nat × Nat)) (m : UnorderedMap Nat Nat) : UnorderedMap Nat Nat :=
  ps.foldl (fun acc p => opResMap (UnorderedMap.emplace idHash acc p.1 p.2)) m

/-- Apply a sequence of `insert({k, v})` calls. -/
def insertSeq (ps : List (Nat × Nat)) (m : UnorderedMap Nat Nat) : UnorderedMap Nat Nat :=
  ps.foldl (fun acc p => opResMap (UnorderedMap.insert idHash acc p.1 p.2)) m

/-- Default-constructed map (16 buckets), `emplace(1, 10)` then
`emplace(0, 20)`: two entries in distinct buckets, list order key 1 first. -/
def c1pre : UnorderedMap Nat Nat := emplaceSeq [(1, 10), (0, 20)] (UnorderedMap.mkUMap 16)

/-- The state after `rehash(32)` on `c1pre` (a legal rehash: 32 exceeds
`size / max_load_factor() = 2`). -/
def c1post : UnorderedMap Nat Nat := (UnorderedMap.rehash idHash c1pre 32).getD (UnorderedMap.mkUMap 0)

/-- Default-constructed map, `emplace(0, 10)` then `emplace(1, 11)`. -/
def c2mid : UnorderedMap Nat Nat := emplaceSeq [(0, 10), (1, 11)] (UnorderedMap.mkUMap 16)

/-- `c2mid` after `erase(find(1))` (the key-1 node has identity 1). -/
def c2post : UnorderedMap Nat Nat :=
  ((UnorderedMap.erase idHash c2mid (some 1)).map Prod.fst).getD (UnorderedMap.mkUMap 0)

/-- Default-constructed map filled with the 17 distinct keys
16, 0, 1, ..., 15 (in that order) via `insert`. -/
def c3pre : UnorderedMap Nat Nat :=
  insertSeq ((16, 160) :: (List.range 16).map (fun i => (i, 10 * i))) (UnorderedMap.mkUMap 16)

/-- The second `insert` of key 0 (already present in `c3pre`). -/
def c3res : OpRes Nat Nat := UnorderedMap.insert idHash c3pre 0 999

/-- Default-constructed map after `emplace` of the 17 distinct keys 0..16. -/
def c5after17 : UnorderedMap Nat Nat :=
  emplaceSeq ((List.range 17).map (fun i => (i, i))) (UnorderedMap.mkUMap 16)

/-- `c5after17` after one more `emplace` of the fresh key 17 (the first call
made with `load_factor() > 1`). -/
def c5after18 : UnorderedMap Nat Nat := opResMap (UnorderedMap.emplace idHash c5after17 17 17)

/-- Default-constructed map holding the single entry `(0, 10)`. -/
def c6pre : UnorderedMap Nat Nat := opResMap (UnorderedMap.emplace idHash (UnorderedMap.mkUMap 16) 0 10)

/-- C1: the claim states that after every sequence of insert/emplace/erase
(and rehash/clear) operations the bucket partition invariant holds: the
concatenation of the bucket ranges in ascending index order reproduces the
full element-list content with no omissions.  The code violates it: after
`emplace(1, 10)`, `emplace(0, 20)` and the legal `rehash(32)`, the key-0
entry is in the element list but in no bucket's range, because `rehash`
records `bucket.begin` as the cursor node before splicing the group's members
in front of that node (src 783-792). -/
theorem c1_rehash_breaks_partition :
    UnorderedMap.rehash idHash c1pre 32 = some c1post ∧
    (⟨1, 0, 20⟩ : Entry Nat Nat) ∈ c1post.elements ∧
    (⟨1, 0, 20⟩ : Entry Nat Nat) ∉ bucketsConcat c1post := by decide

/-- C2: the claim states that `find(k)` returns an entry iff `k` was inserted
and not erased, and the end iterator otherwise.  The code violates the
"otherwise" direction: after `emplace(0, 10)`, `emplace(1, 11)` and
`erase(find(1))`, bucket 0's `end` still designates the erased node (erase
updates only the erased key's own bucket, src 943-959), so `find(16)` — key
16 hashes to bucket 0 and was never inserted — walks past the bucket into the
tail sentinel and dereferences it instead of returning `end()`. -/
theorem c2_find_after_erase_not_end :
    UnorderedMap.find idHash c2mid 1 = FindOutcome.ret (some ⟨1, 1, 11⟩) ∧
    UnorderedMap.erase idHash c2mid (some 1) = some (c2post, none) ∧
    (∀ e ∈ c2post.elements, e.key ≠ 16) ∧
    UnorderedMap.find idHash c2post 16 = FindOutcome.derefUB ∧
    UnorderedMap.find idHash c2post 16 ≠ FindOutcome.ret none := by decide

/-- C3: the claim states that inserting an already-present key leaves
`size()` unchanged and returns `false` with the original entry intact.  The
code violates it: with the 17 distinct keys 16, 0, 1, ..., 15 inserted into a
16-bucket map, the next `insert(0, 999)` first triggers `check_rehash` whose
corrupted relinking empties the recorded ranges of buckets 0-15, so the
duplicate scan misses the live key-0 entry and a second key-0 entry is
inserted: the call returns `true` and `size()` grows to 18. -/
theorem c3_second_insert_not_idempotent :
    UnorderedMap.size c3pre = 17 ∧
    c3pre.elements.countP (fun e => e.key == 0) = 1 ∧
    opResInserted c3res = true ∧
    UnorderedMap.size (opResMap c3res) = 18 ∧
    (opResMap c3res).elements.countP (fun e => e.key == 0) = 2 := by decide

/-- C4: the claim states that after `rehash(n)` with
`n ≥ ceil(size/max_load_factor())`, `find` yields the same membership result
for every previously-present key.  The code violates it: key 0 is found
before `rehash(32)` on the two-entry map `c1pre` (size 2 ≤ 32), is still in
the element list afterwards, yet `find(0)` then returns the end iterator
because bucket 0's rebuilt range is empty. -/
theorem c4_rehash_changes_find_membership :
    UnorderedMap.find idHash c1pre 0 = FindOutcome.ret (some ⟨1, 0, 20⟩) ∧
    UnorderedMap.size c1pre ≤ 32 ∧
    UnorderedMap.rehash idHash c1pre 32 = some c1post ∧
    UnorderedMap.bucket_count c1post = 32 ∧
    (⟨1, 0, 20⟩ : Entry Nat Nat) ∈ c1post.elements ∧
    UnorderedMap.find idHash c1post 0 = FindOutcome.ret none := by decide

/-- C5: when `load_factor() > max_load_factor()` (i.e. `bucket_count <
size`), both `emplace` and `insert` perform `rehash(bucket_count * 2)` before
computing the bucket index, so the entry is placed against the post-rehash
bucket table; and concretely, emplacing the 18 distinct keys 0..17 into a
default 16-bucket map leaves the bucket count at 16 through size 17 and
rehashes to 32 buckets on the first call made with load factor above 1. -/
theorem c5_rehash_runs_before_index :
    (∀ (K V : Type) [DecidableEq K] (hasher : K → Nat) (m : UnorderedMap K V) (k : K) (v : V),
      UnorderedMap.needsRehash m = true →
      (UnorderedMap.emplace hasher m k v =
        (match UnorderedMap.rehash hasher m (2 * UnorderedMap.bucket_count m) with
          | none => OpRes.crash
          | some m0 => UnorderedMap.emplaceNoRehash hasher m0 k v) ∧
        UnorderedMap.insert hasher m k v =
        (match UnorderedMap.rehash hasher m (2 * UnorderedMap.bucket_count m) with
          | none => OpRes.crash
          | some m0 => UnorderedMap.insertNoRehash hasher m0 k v))) ∧
    UnorderedMap.bucket_count c5after17 = 16 ∧ UnorderedMap.size c5after17 = 17 ∧
    UnorderedMap.bucket_count c5after18 = 32 ∧ UnorderedMap.size c5after18 = 18 := by
  constructor
  · intro K V _ hasher m k v h
    constructor
    · simp only [UnorderedMap.emplace, UnorderedMap.check_rehash, h, if_true]
    · simp only [UnorderedMap.insert, UnorderedMap.check_rehash, h, if_true]
  · decide

/-- C5 witness: the general part of the claim theorem applied at the concrete
over-full map `c5after17` (size 17 > bucket count 16). -/
theorem c5_rehash_runs_before_index_witness :
    UnorderedMap.emplace idHash c5after17 20 21 =
      (match UnorderedMap.rehash idHash c5after17 (2 * UnorderedMap.bucket_count c5after17) with
        | none => OpRes.crash
        | some m0 => UnorderedMap.emplaceNoRehash idHash m0 20 21) :=
  (c5_rehash_runs_before_index.1 Nat Nat idHash c5after17 20 21 (by decide)).1

/-- C6: the claim states that `at` raises exactly on missing keys while
`operator[]` never raises for a missing key and inserts a default value
instead.  The code violates the `operator[]` part: with only key 0 present in
a default 16-bucket map, key 16 hashes to the same (tail) bucket, whose `end`
is the end sentinel; `emplace` appends its new node before scanning, the scan
reaches the node itself, destroys it and returns `(dangling, false)`, and
`operator[]` dereferences that dangling iterator instead of inserting a
default entry (`at(16)` on the same state correctly reports key-not-found). -/
theorem c6_opIndex_crashes_on_missing_key :
    (∀ e ∈ c6pre.elements, e.key ≠ 16) ∧
    UnorderedMap.atKey idHash c6pre 16 = AtRes.keyNotFound ∧
    UnorderedMap.opIndex idHash 0 c6pre 16 = none := by decide

/-- C7: the claim states that when entry construction raises inside
`emplace`, the partially-constructed entry is destroyed and its node memory
deallocated before the error propagates, leaving the map unchanged.  The code
propagates the error with the map contents unchanged, but `List::emplace` has
no cleanup path between `allocate` and the raising `construct`, so the live
allocation count ends at `live + 1` — the node is leaked, not deallocated. -/
theorem c7_emplace_ctor_throw_leaks :
    ∀ (K V : Type) [DecidableEq K] (hasher : K → Nat) (m : UnorderedMap K V) (live : Nat),
      UnorderedMap.needsRehash m = false →
      UnorderedMap.emplaceCtorThrow hasher m live = some (m, live + 1) := by
  intro K V _ hasher m live h
  simp only [UnorderedMap.emplaceCtorThrow, UnorderedMap.check_rehash, h, if_false,
    listEmplaceCtorThrow, Bool.false_eq_true]

/-- C7 witness: the leak theorem applied at the one-entry map `c6pre` with no
prior live allocations. -/
theorem c7_emplace_ctor_throw_leaks_witness :
    UnorderedMap.emplaceCtorThrow idHash c6pre 0 = some (c6pre, 1) :=
  c7_emplace_ctor_throw_leaks Nat Nat idHash c6pre 0 (by decide)

/-- C8 counterexample: on a map constructed with bucket count 0 (also
reachable as `rehash(0)` on the empty default map, last conjunct), `find`
reads `buckets[0]` of the empty bucket table — an out-of-bounds access — and
does not return the end iterator, contrary to the claim. -/
theorem c8_counterexample_bucket_table_oob :
    UnorderedMap.find idHash (UnorderedMap.mkUMap 0 : UnorderedMap Nat Nat) 7 =
      FindOutcome.tableOOB ∧
    UnorderedMap.find idHash (UnorderedMap.mkUMap 0 : UnorderedMap Nat Nat) 7 ≠
      FindOutcome.ret none ∧
    UnorderedMap.rehash idHash (UnorderedMap.mkUMap 16 : UnorderedMap Nat Nat) 0 =
      some (UnorderedMap.mkUMap 0) := by decide

/-- C8 amended: on every map state with a non-empty bucket table the
bucket-table access in `find` is in bounds (`get_bucket_index` yields
`hash(k) % bucket_count < bucket_count`), and `find` never commits the
out-of-bounds table access; with bucket count 0 the access is out of
bounds (see the counterexample). -/
theorem c8_find_in_bounds_when_buckets_nonempty :
    ∀ (K V : Type) [DecidableEq K] (hasher : K → Nat) (m : UnorderedMap K V) (k : K),
      0 < UnorderedMap.bucket_count m →
      (m.buckets[UnorderedMap.get_bucket_index hasher m k]?).isSome = true ∧
      UnorderedMap.find hasher m k ≠ FindOutcome.tableOOB := by
  intro K V _ hasher m k h
  have hne : m.buckets.isEmpty = false := by
    cases hb : m.buckets with
    | nil =>
      rw [UnorderedMap.bucket_count, hb] at h
      exact absurd h (by simp)
    | cons b bs => simp
  have hidx : UnorderedMap.get_bucket_index hasher m k < m.buckets.length := by
    rw [UnorderedMap.get_bucket_index, hne]
    simp only [Bool.false_eq_true, if_false]
    exact Nat.mod_lt _ h
  refine ⟨?_, ?_⟩
  · rw [List.getElem?_eq_getElem hidx]
    rfl
  · rw [UnorderedMap.find]
    rw [List.getElem?_eq_getElem hidx]
    cases hsc : bucketScan m.elements k m.buckets[UnorderedMap.get_bucket_index hasher m k] <;>
      simp [hsc]

/-- C8 witness: the amended in-bounds theorem applied at the default
16-bucket map and key 5. -/
theorem c8_find_in_bounds_witness :
    ((UnorderedMap.mkUMap 16 : UnorderedMap Nat Nat).buckets[UnorderedMap.get_bucket_index
      idHash (UnorderedMap.mkUMap 16 : UnorderedMap Nat Nat) 5]?).isSome = true ∧
    UnorderedMap.find idHash (UnorderedMap.mkUMap 16 : UnorderedMap Nat Nat) 5 ≠
      FindOutcome.tableOOB :=
  c8_find_in_bounds_when_buckets_nonempty Nat Nat idHash (UnorderedMap.mkUMap 16) 5 (by decide)

/-- C9 counterexample: after move-constructing from the one-entry map
`c6pre`, the source reports size 0, but `find` on the source reads
`buckets[0]` of its emptied bucket table out of bounds, while the same `find`
on a genuinely empty default-constructed map returns the end iterator — so
not every public operation on the moved-from map behaves as on an empty map,
contrary to the claim. -/
theorem c9_counterexample_moved_from_source :
    UnorderedMap.size (UnorderedMap.umMoveCtor c6pre).2 = 0 ∧
    UnorderedMap.find idHash (UnorderedMap.umMoveCtor c6pre).2 5 = FindOutcome.tableOOB ∧
    UnorderedMap.find idHash (UnorderedMap.mkUMap 16 : UnorderedMap Nat Nat) 5 =
      FindOutcome.ret none ∧
    UnorderedMap.find idHash (UnorderedMap.umMoveCtor c6pre).2 5 ≠
      UnorderedMap.find idHash (UnorderedMap.mkUMap 16 : UnorderedMap Nat Nat) 5 := by decide

/-- C9 amended: move construction transfers the element list and bucket table
wholesale to the new map (no per-entry work is modelled because none is
performed), and the source is left with `size() == 0` and `empty() == true`;
but the source is not left in a state on which further public operations
behave as on an empty map (see the counterexample). -/
theorem c9_move_transfers_wholesale :
    ∀ (K V : Type) (m : UnorderedMap K V),
      (UnorderedMap.umMoveCtor m).1.elements = m.elements ∧
      (UnorderedMap.umMoveCtor m).1.buckets = m.buckets ∧
      UnorderedMap.size (UnorderedMap.umMoveCtor m).2 = 0 ∧
      UnorderedMap.mapEmpty (UnorderedMap.umMoveCtor m).2 = true := by
  intro K V m
  exact ⟨rfl, rfl, rfl, rfl⟩

/-- C10: `erase` called with the end iterator on any map state is a no-op:
it returns the end iterator and the map is returned unchanged (hence same
entries, size, bucket count and bucket descriptors). -/
theorem c10_erase_end_is_noop :
    ∀ (K V : Type) [DecidableEq K] (hasher : K → Nat) (m : UnorderedMap K V),
      UnorderedMap.erase hasher m none = some (m, none) := by
  intro K V _ hasher m
  rfl
